import Mathlib

/-!
Shallow embedding of `backend/app/main.py`, the bootstrap/composition-root
module of the ArtReal backend.  External fallible operations (imports of
collaborator modules, the database initializer, the orchestrator shutdown
call) are modelled by an environment `Env` recording the outcome of each;
`runBootstrap` replays the module body over such an environment, producing
the trace of executed stages, the emitted log, and either the re-raised
exception or the application object ready to serve.
-/

namespace ArtReal

/-- The configuration object imported from `app.core.config` (an external
collaborator of this module).  The field `API_V1_PATH` embeds the source
attribute named `API_V1_PREFIX` (the mount point of the API router). -/
structure Settings where
  APP_NAME : String
  APP_VERSION : String
  DEBUG : Bool
  API_V1_PATH : String
deriving DecidableEq

/-- The keyword arguments accepted by
`app.add_middleware(CORSMiddleware, ...)`. -/
structure CORSConfig where
  allow_origins : List String
  allow_credentials : Bool
  allow_methods : List String
  allow_headers : List String
  expose_headers : List String
deriving DecidableEq

/-- A record emitted through the module logger (`logger.info` /
`logger.error`). -/
inductive LogEntry
  | info (msg : String)
  | error (msg : String)
deriving DecidableEq

/-- Stands for the Python call `traceback.format_exc()`: the stack-trace
text of the exception currently being handled, which embeds the exception
message. -/
def format_exc (e : String) : String :=
  "Traceback (most recent call last): " ++ e

/-- An HTTP response: status code plus a flat JSON object body (every body
produced by this module is a string-valued object). -/
structure Response where
  status : Nat
  body : List (String × String)
deriving DecidableEq

/-- The handler of `GET /` (source: `async def root`). -/
def root (settings : Settings) : Response :=
  { status := 200
    body := [("message", "Welcome to ArtReal API"),
             ("version", settings.APP_VERSION),
             ("docs", "/docs")] }

/-- The handler of `GET /health` (source: `async def health_check`). -/
def health_check : Response :=
  { status := 200, body := [("status", "healthy")] }

/-- A registered route: method, path, and the (pure) response its handler
produces. -/
structure Route where
  method : String
  path : String
  response : Response
deriving DecidableEq

/-- The lifecycle hooks this module registers with `@app.on_event`. -/
inductive Hook
  | startup_event
  | shutdown_event
deriving DecidableEq

/-- The FastAPI application object, restricted to what `main.py` puts on
it: constructor arguments, middleware, routes, attached router mounts and
lifecycle hooks. -/
structure AppState where
  title : String
  version : String
  debug : Bool
  redirect_slashes : Bool
  middleware : List CORSConfig
  routes : List Route
  routerMounts : List String
  onStartup : List Hook
  onShutdown : List Hook
deriving DecidableEq

/-- Fault-injection environment: the outcome of every external fallible
operation the module performs, plus the ambient process environment.
`Except.error e` means the operation raises an exception with message `e`. -/
structure Env where
  /-- `os.getcwd()` -/
  cwd : String
  /-- `os.environ.get("PORT")` -/
  portEnv : Option String
  /-- `from app.core.config import settings` -/
  settingsImport : Except String Settings
  /-- `from app.db import init_db` -/
  dbImport : Except String Unit
  /-- `from app.api import api_router` -/
  apiImport : Except String Unit
  /-- the three module-level `logging.getLogger(...).setLevel(...)` calls -/
  setLogLevels : Except String Unit
  /-- calling `init_db()` inside the startup hook -/
  init_db : Except String Unit
  /-- `from app.agents import shutdown_orchestrators` inside the shutdown hook -/
  agentsImport : Except String Unit
  /-- awaiting `shutdown_orchestrators()` inside the shutdown hook -/
  shutdown_orchestrators : Except String Unit

/-- The stages of the bootstrap sequence, in source order. -/
inductive Stage
  | configureLogging
  | loadSettings
  | constructApp
  | registerCORS
  | registerRoot
  | registerHealth
  | importDb
  | importApiRouter
  | attachRouter
  | adjustLogLevels
deriving DecidableEq

/-- Stage policy from the stage table of the specification (section 4.1):
every blocking stage is `fatal` except the per-subsystem log-verbosity
adjustment. -/
def fatalPolicy : Stage → Bool
  | .adjustLogLevels => false
  | _ => true

/-- Outcome of module-level execution: either an exception propagated out
of the module body (aborting initialization) or the application object is
ready to serve.  Both carry the trace of stages that began executing and
the log emitted so far. -/
inductive BootstrapResult
  | aborted (trace : List Stage) (log : List LogEntry) (err : String)
  | serving (trace : List Stage) (log : List LogEntry) (app : AppState)
deriving DecidableEq

/-- The stages that began executing. -/
def BootstrapResult.traceOf : BootstrapResult → List Stage
  | .aborted t _ _ => t
  | .serving t _ _ => t

/-- The log the module emitted. -/
def BootstrapResult.logOf : BootstrapResult → List LogEntry
  | .aborted _ l _ => l
  | .serving _ l _ => l

/-- The repeated `try/except` pattern of the module body: on success log
the success line; on failure log the failure line and the stack trace,
then re-raise the exception. -/
def fatalBoundary (op : Except String α) (okMsg : α → String) (failMsg : String) :
    Except (String × List LogEntry) (α × List LogEntry) :=
  match op with
  | .ok a => .ok (a, [.info (okMsg a)])
  | .error e => .error (e, [.error (failMsg ++ e), .error (format_exc e)])

/-- The keyword arguments of the `app.add_middleware(CORSMiddleware, ...)`
call in the source. -/
def corsRegistration : CORSConfig :=
  { allow_origins := ["*"]
    allow_credentials := false
    allow_methods := ["*"]
    allow_headers := ["*"]
    expose_headers := ["*"] }

/-- Module-level execution of `backend/app/main.py`, from
`logging.basicConfig` down to the final readiness log line.  Statements
inside a `try/except` go through `fatalBoundary`; statements outside any
`try` (in particular the three `setLevel` calls) propagate exceptions
directly, without logging them.  (The Windows console-encoding branch is
elided: it touches only the interpreter stdout wrappers, never the
application object or the log.) -/
def runBootstrap (env : Env) : BootstrapResult :=
  let log0 : List LogEntry :=
    [ .info "🚀 Starting ArtReal Backend...",
      .info ("📍 Working directory: " ++ env.cwd),
      .info ("📍 PORT env: " ++ env.portEnv.getD "not set") ]
  match fatalBoundary env.settingsImport
      (fun s => "✅ Settings loaded (DEBUG=" ++ (if s.DEBUG then "True" else "False") ++ ")")
      "❌ Failed to load settings: " with
  | .error (e, lerr) => .aborted [.configureLogging, .loadSettings] (log0 ++ lerr) e
  | .ok (settings, lok) =>
    let log1 := log0 ++ lok
    let app1 : AppState :=
      { title := settings.APP_NAME
        version := settings.APP_VERSION
        debug := settings.DEBUG
        redirect_slashes := false
        middleware := [corsRegistration]
        routes := [ { method := "GET", path := "/", response := root settings },
                    { method := "GET", path := "/health", response := health_check } ]
        routerMounts := []
        onStartup := []
        onShutdown := [] }
    let log2 := log1 ++ [.info "✅ Basic FastAPI app created, now importing API modules..."]
    let t2 : List Stage := [.configureLogging, .loadSettings, .constructApp,
                            .registerCORS, .registerRoot, .registerHealth]
    match fatalBoundary env.dbImport (fun _ => "✅ Database module imported")
        "❌ Failed to import database module: " with
    | .error (e, lerr) => .aborted (t2 ++ [.importDb]) (log2 ++ lerr) e
    | .ok (_, lok2) =>
      let log3 := log2 ++ lok2
      match fatalBoundary env.apiImport (fun _ => "✅ API router imported")
          "❌ Failed to import API router: " with
      | .error (e, lerr) => .aborted (t2 ++ [.importDb, .importApiRouter]) (log3 ++ lerr) e
      | .ok (_, lok3) =>
        let log4 := log3 ++ lok3
        let app2 := { app1 with routerMounts := [settings.API_V1_PATH] }
        let log5 := log4 ++ [.info ("✅ API routes included at " ++ settings.API_V1_PATH)]
        match env.setLogLevels with
        | .error e =>
            .aborted (t2 ++ [.importDb, .importApiRouter, .attachRouter, .adjustLogLevels])
              log5 e
        | .ok _ =>
          let app3 := { app2 with onStartup := [Hook.startup_event],
                                  onShutdown := [Hook.shutdown_event] }
          .serving (t2 ++ [.importDb, .importApiRouter, .attachRouter, .adjustLogLevels])
            (log5 ++ [.info "✅ FastAPI app ready to serve requests"]) app3

/-- Route lookup of the application: first registered route matching method
and path. -/
def handleRequest (app : AppState) (method path : String) : Option Response :=
  (app.routes.find? (fun r => r.method == method && r.path == path)).map Route.response

/-- Result of running one lifecycle hook: the log records it emitted and
whether an exception escaped it. -/
structure HookResult where
  log : List LogEntry
  raised : Bool
deriving DecidableEq

/-- Source: `async def startup_event`.  The failure boundary swallows the
`init_db()` error after logging message and stack trace (the source
comment: do not raise, let the app start anyway). -/
def startup_event (env : Env) : HookResult :=
  match env.init_db with
  | .ok _ =>
      { log := [.info "📦 Initializing database...",
                .info "✅ Database initialized successfully"]
        raised := false }
  | .error e =>
      { log := [.info "📦 Initializing database...",
                .error ("❌ Failed to initialize database: " ++ e),
                .error (format_exc e)]
        raised := false }

/-- Source: `async def shutdown_event`.  The lazy
`from app.agents import shutdown_orchestrators` sits inside the `try`, so
an import failure is handled exactly like a failure of the awaited call:
logged (message only, no stack trace) and swallowed. -/
def shutdown_event (env : Env) : HookResult :=
  match env.agentsImport with
  | .error e => { log := [.error ("❌ Error during shutdown: " ++ e)], raised := false }
  | .ok _ =>
    match env.shutdown_orchestrators with
    | .error e => { log := [.error ("❌ Error during shutdown: " ++ e)], raised := false }
    | .ok _ => { log := [], raised := false }

/-- Dispatch a registered hook. -/
def runHook (env : Env) : Hook → HookResult
  | .startup_event => startup_event env
  | .shutdown_event => shutdown_event env

/-- The application state actually serving requests: `none` when module
initialization aborted, or when a startup hook let an exception escape (the
framework then fails startup and the listener never reports ready). -/
def serveState (env : Env) : Option AppState :=
  match runBootstrap env with
  | .aborted _ _ _ => none
  | .serving _ _ app =>
      if app.onStartup.any (fun h => (runHook env h).raised) then none else some app

/-- Process shutdown: the framework runs every registered shutdown hook
exactly once, in registration order.  Returns the hook results in order,
and whether some hook let an exception escape (which would disrupt the
remaining exit sequence). -/
def processShutdown (env : Env) (app : AppState) : List HookResult × Bool :=
  let results := app.onShutdown.map (runHook env)
  (results, results.any HookResult.raised)

/-- The arguments of the `uvicorn.run` call. -/
structure UvicornArgs where
  application : String
  host : String
  port : Nat
  reload : Bool
deriving DecidableEq

/-- The `if __name__ == "__main__"` block: the arguments handed to
`uvicorn.run` when module initialization succeeded (a module-level
exception propagates before this block is reached). -/
def mainEntry (env : Env) : Option UvicornArgs :=
  match runBootstrap env with
  | .aborted _ _ _ => none
  | .serving _ _ app =>
      some { application := "app.main:app", host := "0.0.0.0", port := 8000,
             reload := app.debug }

/-- The exception (if any) that propagated out of the module body. -/
def BootstrapResult.errOf : BootstrapResult → Option String
  | .aborted _ _ e => some e
  | .serving _ _ _ => none

/-- A concrete nominal configuration used to instantiate the theorems. -/
def settingsNominal : Settings :=
  { APP_NAME := "ArtReal", APP_VERSION := "1.0.0", DEBUG := false,
    API_V1_PATH := "/api/v1" }

/-- A concrete environment in which every external operation succeeds. -/
def envNominal : Env :=
  { cwd := "/srv/app"
    portEnv := some "8080"
    settingsImport := .ok settingsNominal
    dbImport := .ok ()
    apiImport := .ok ()
    setLogLevels := .ok ()
    init_db := .ok ()
    agentsImport := .ok ()
    shutdown_orchestrators := .ok () }

/-- The application object the nominal environment produces. -/
def appNominal : AppState :=
  { title := "ArtReal"
    version := "1.0.0"
    debug := false
    redirect_slashes := false
    middleware := [corsRegistration]
    routes := [ { method := "GET", path := "/", response := root settingsNominal },
                { method := "GET", path := "/health", response := health_check } ]
    routerMounts := ["/api/v1"]
    onStartup := [Hook.startup_event]
    onShutdown := [Hook.shutdown_event] }

/-- A concrete environment whose configuration import raises. -/
def envSettingsFail : Env :=
  { envNominal with settingsImport := .error "config import failed" }

/-- A concrete environment in which the per-subsystem `setLevel` calls
raise and everything else succeeds. -/
def envLogLevelFail : Env :=
  { envNominal with setLogLevels := .error "setLevel raised" }

/-- A concrete environment whose lazy `app.agents` import raises at
shutdown. -/
def envAgentsFail : Env :=
  { envNominal with agentsImport := .error "agents import failed" }

/-- A concrete environment in which both deferred hooks raise. -/
def envHooksFail : Env :=
  { envNominal with init_db := .error "boom", agentsImport := .error "boom" }

/-- A concrete environment in which the module-scope database and
router imports and the lazy shutdown-time agents import all raise. -/
def envMixedFail : Env :=
  { envNominal with dbImport := .error "no db module",
                    apiImport := .error "no db module",
                    agentsImport := .error "no agents module" }

/-- Modelled from the spec: the preflight (`OPTIONS`) answer computed by
the CORS middleware — `fastapi.middleware.cors.CORSMiddleware`, an external
framework collaborator whose implementation is not part of this repository
— from a registered policy: the origin is allowed when the policy allows
all origins or lists it; the method and the requested headers likewise; the
credentials-allowed header is attached exactly when `allow_credentials` is
set. -/
def preflight (c : CORSConfig) (origin method : String) (reqHeaders : List String) :
    List (String × String) :=
  (if c.allow_origins.contains "*" || c.allow_origins.contains origin then
     [("Access-Control-Allow-Origin", if c.allow_origins.contains "*" then "*" else origin)]
   else [])
  ++ (if c.allow_methods.contains "*" || c.allow_methods.contains method then
       [("Access-Control-Allow-Methods",
         if c.allow_methods.contains "*" then "*" else method)]
     else [])
  ++ (if c.allow_headers.contains "*" || reqHeaders.all c.allow_headers.contains then
       [("Access-Control-Allow-Headers",
         if c.allow_headers.contains "*" then "*" else String.intercalate ", " reqHeaders)]
     else [])
  ++ (if c.allow_credentials then [("Access-Control-Allow-Credentials", "true")] else [])

/-- Modelled from the spec: a preflight request is permitted when its
origin, its method and every requested header are allowed by the policy. -/
def preflightPermits (c : CORSConfig) (origin method : String)
    (reqHeaders : List String) : Bool :=
  (c.allow_origins.contains "*" || c.allow_origins.contains origin) &&
  (c.allow_methods.contains "*" || c.allow_methods.contains method) &&
  (c.allow_headers.contains "*" || reqHeaders.all c.allow_headers.contains)

/-- The startup failure boundary swallows every error: no exception ever
escapes `startup_event`. -/
theorem startup_event_never_raises (env : Env) : (startup_event env).raised = false := by
  rcases h : env.init_db with e | u <;> simp [startup_event, h]

/-- The shutdown failure boundary swallows every error: no exception ever
escapes `shutdown_event`. -/
theorem shutdown_event_never_raises (env : Env) : (shutdown_event env).raised = false := by
  rcases h : env.agentsImport with e | u
  · simp [shutdown_event, h]
  · rcases h2 : env.shutdown_orchestrators with e2 | u2 <;> simp [shutdown_event, h, h2]

/-- C1: whenever the application reaches the serving state, `GET /health`
answers `200` with body `status: healthy`; and the outcome of the
database-initialization startup hook — including an exception — never
changes whether (or with which application object) the service serves,
because the startup failure boundary swallows the error. -/
theorem health_always_served (env : Env) (d : Except String Unit) (app : AppState)
    (h : serveState env = some app) :
    handleRequest app "GET" "/health" =
        some { status := 200, body := [("status", "healthy")] } ∧
    serveState { env with init_db := d } = some app := by
  rcases hs : env.settingsImport with e | s <;>
    rcases hdb : env.dbImport with e2 | u <;>
      rcases hapi : env.apiImport with e3 | u2 <;>
        rcases hll : env.setLogLevels with e4 | u3 <;>
          simp [serveState, runBootstrap, fatalBoundary, hs, hdb, hapi, hll, runHook,
                startup_event_never_raises, handleRequest, List.find?, health_check] at h ⊢
  subst h
  simp [List.find?]

/-- Closed instance of C1 at a concrete environment whose startup hook
raises. -/
theorem health_always_served_witness :
    handleRequest appNominal "GET" "/health" =
        some { status := 200, body := [("status", "healthy")] } ∧
    serveState { envNominal with init_db := Except.error "db down" } = some appNominal :=
  health_always_served envNominal (Except.error "db down") appNominal (by decide)

/-- C2: if the settings import, the database-module import, or the
API-router import raises, the exception is re-raised after the boundary
logs it (the log holds the stack trace), module initialization aborts, and
neither the serving state nor the `uvicorn.run` call is ever reached. -/
theorem fatal_import_aborts (env : Env) (e : String)
    (h : env.settingsImport = Except.error e ∨
         ((∃ s, env.settingsImport = Except.ok s) ∧ env.dbImport = Except.error e) ∨
         ((∃ s, env.settingsImport = Except.ok s) ∧ env.dbImport = Except.ok () ∧
            env.apiImport = Except.error e)) :
    (runBootstrap env).errOf = some e ∧
    LogEntry.error (format_exc e) ∈ (runBootstrap env).logOf ∧
    serveState env = none ∧
    mainEntry env = none := by
  rcases h with h1 | ⟨⟨s, hs⟩, hdb⟩ | ⟨⟨s, hs⟩, hdb, hapi⟩
  · simp [runBootstrap, fatalBoundary, serveState, mainEntry,
          BootstrapResult.errOf, BootstrapResult.logOf, h1]
  · simp [runBootstrap, fatalBoundary, serveState, mainEntry,
          BootstrapResult.errOf, BootstrapResult.logOf, hs, hdb]
  · simp [runBootstrap, fatalBoundary, serveState, mainEntry,
          BootstrapResult.errOf, BootstrapResult.logOf, hs, hdb, hapi]

/-- Closed instance of C2 at a concrete environment whose
configuration import raises. -/
theorem fatal_import_aborts_witness :
    (runBootstrap envSettingsFail).errOf = some "config import failed" ∧
    LogEntry.error (format_exc "config import failed") ∈ (runBootstrap envSettingsFail).logOf ∧
    serveState envSettingsFail = none ∧
    mainEntry envSettingsFail = none :=
  fatal_import_aborts envSettingsFail "config import failed" (Or.inl rfl)

/-- C3 is refuted at the nominal (all-successful) environment: the stages
executed before `registerHealth` include stages with policy `fatal`
(`configureLogging` and `loadSettings`), so the health endpoint is not
registered before every fatal-policy stage runs. -/
theorem health_after_fatal_policy_counterexample :
    ((runBootstrap envNominal).traceOf.takeWhile
        (fun s => !(s == Stage.registerHealth))).all (fun s => !fatalPolicy s) = false := by
  decide

/-- C3 amended: in every execution, the health endpoint is registered
before the fatal stages that follow application construction — the
database-module import, the API-router import, and the router attachment —
begin executing. -/
theorem health_registered_before_imports (env : Env) (s : Stage)
    (hstage : s = Stage.importDb ∨ s = Stage.importApiRouter ∨ s = Stage.attachRouter)
    (hmem : s ∈ (runBootstrap env).traceOf) :
    Stage.registerHealth ∈ (runBootstrap env).traceOf.takeWhile (fun x => !(x == s)) := by
  rcases hset : env.settingsImport with e | st <;>
    rcases hdb : env.dbImport with e2 | u <;>
      rcases hapi : env.apiImport with e3 | u2 <;>
        rcases hll : env.setLogLevels with e4 | u3 <;>
          simp [runBootstrap, fatalBoundary, BootstrapResult.traceOf,
                hset, hdb, hapi, hll] at hmem ⊢ <;>
            rcases hstage with rfl | rfl | rfl <;> revert hmem <;> decide

/-- Closed instance of the amended C3 at the nominal environment and the
database-import stage. -/
theorem health_registered_before_imports_witness :
    Stage.registerHealth ∈ (runBootstrap envNominal).traceOf.takeWhile
      (fun x => !(x == Stage.importDb)) :=
  health_registered_before_imports envNominal Stage.importDb (Or.inl rfl) (by decide)

/-- C4 is refuted: when the per-subsystem log-level adjustment raises, the
error is not skipped — the exception propagates out of module
initialization and the serving state is never reached. -/
theorem log_verbosity_counterexample :
    serveState envLogLevelFail = none ∧
    (runBootstrap envLogLevelFail).errOf = some "setLevel raised" := by
  decide

/-- C4 amended: the three `setLevel` calls run outside any failure
boundary, so an error there propagates out of module initialization —
aborting bootstrap before the serving state — and is never recorded by the
module logger. -/
theorem log_verbosity_error_aborts (env : Env) (st : Settings) (e m : String)
    (hs : env.settingsImport = Except.ok st)
    (hdb : env.dbImport = Except.ok ())
    (hapi : env.apiImport = Except.ok ())
    (hll : env.setLogLevels = Except.error e) :
    (runBootstrap env).errOf = some e ∧
    serveState env = none ∧
    LogEntry.error m ∉ (runBootstrap env).logOf := by
  simp [runBootstrap, fatalBoundary, serveState, BootstrapResult.errOf,
        BootstrapResult.logOf, hs, hdb, hapi, hll]

/-- Closed instance of the amended C4 at a concrete environment. -/
theorem log_verbosity_error_aborts_witness :
    (runBootstrap envLogLevelFail).errOf = some "setLevel raised" ∧
    serveState envLogLevelFail = none ∧
    LogEntry.error "some error line" ∉ (runBootstrap envLogLevelFail).logOf :=
  log_verbosity_error_aborts envLogLevelFail settingsNominal "setLevel raised"
    "some error line" rfl rfl rfl rfl

/-- C5 is refuted at the shutdown boundary: on a captured error it logs the
error message only — the log it emits contains no stack-trace record. -/
theorem shutdown_log_counterexample :
    (shutdown_event envAgentsFail).log =
      [LogEntry.error "❌ Error during shutdown: agents import failed"] ∧
    LogEntry.error (format_exc "agents import failed") ∉
      (shutdown_event envAgentsFail).log := by
  decide

/-- C5 amended: each fatal boundary (settings, database-module and
API-router imports) logs the stage-specific failure message and the stack
trace, then re-raises; the startup boundary logs both and swallows; the
shutdown boundary logs only the error message — no stack trace — and
swallows. -/
theorem failure_boundary_logging {α : Type} (okMsg : α → String) (failMsg : String)
    (env : Env) (e : String)
    (hdb : env.init_db = Except.error e)
    (hag : env.agentsImport = Except.error e) :
    fatalBoundary (Except.error e : Except String α) okMsg failMsg =
      Except.error (e, [LogEntry.error (failMsg ++ e), LogEntry.error (format_exc e)]) ∧
    (startup_event env).log =
      [LogEntry.info "📦 Initializing database...",
       LogEntry.error ("❌ Failed to initialize database: " ++ e),
       LogEntry.error (format_exc e)] ∧
    (startup_event env).raised = false ∧
    (shutdown_event env).log = [LogEntry.error ("❌ Error during shutdown: " ++ e)] ∧
    (shutdown_event env).raised = false := by
  simp [fatalBoundary, startup_event, shutdown_event, hdb, hag]

/-- Closed instance of the amended C5 at a concrete environment. -/
theorem failure_boundary_logging_witness :
    fatalBoundary (Except.error "boom" : Except String Unit)
        (fun _ => "ok") "failed: " =
      Except.error ("boom", [LogEntry.error "failed: boom",
                             LogEntry.error (format_exc "boom")]) ∧
    (startup_event envHooksFail).log =
      [LogEntry.info "📦 Initializing database...",
       LogEntry.error "❌ Failed to initialize database: boom",
       LogEntry.error (format_exc "boom")] ∧
    (startup_event envHooksFail).raised = false ∧
    (shutdown_event envHooksFail).log = [LogEntry.error "❌ Error during shutdown: boom"] ∧
    (shutdown_event envHooksFail).raised = false :=
  failure_boundary_logging (fun _ => "ok") "failed: " envHooksFail "boom" rfl rfl

/-- C6: a serving application registers exactly one shutdown hook, so
process shutdown invokes `shutdown_event` exactly once; its failure
boundary swallows every error, so no exception escapes to disrupt process
exit, and a raised exception is logged. -/
theorem shutdown_hook_contract (env : Env) (app : AppState) (e : String)
    (h : serveState env = some app)
    (hag : env.agentsImport = Except.error e) :
    (processShutdown env app).1 = [shutdown_event env] ∧
    (processShutdown env app).2 = false ∧
    (shutdown_event env).log = [LogEntry.error ("❌ Error during shutdown: " ++ e)] := by
  rcases hset : env.settingsImport with e1 | st <;>
    rcases hdb : env.dbImport with e2 | u <;>
      rcases hapi : env.apiImport with e3 | u2 <;>
        rcases hll : env.setLogLevels with e4 | u3 <;>
          simp [serveState, runBootstrap, fatalBoundary, hset, hdb, hapi, hll, runHook,
                startup_event_never_raises] at h
  subst h
  refine ⟨rfl, ?_, ?_⟩
  · simp [processShutdown, runHook, shutdown_event_never_raises]
  · simp [shutdown_event, hag]

/-- Closed instance of C6 at a concrete environment whose
shutdown-time import raises. -/
theorem shutdown_hook_contract_witness :
    (processShutdown envAgentsFail appNominal).1 = [shutdown_event envAgentsFail] ∧
    (processShutdown envAgentsFail appNominal).2 = false ∧
    (shutdown_event envAgentsFail).log =
      [LogEntry.error ("❌ Error during shutdown: " ++ "agents import failed")] :=
  shutdown_hook_contract envAgentsFail appNominal "agents import failed" (by decide) rfl

/-- C7: on a serving application, `GET /` answers `200` with the literal
welcome message, the configured application version string, and the
literal docs path. -/
theorem root_endpoint_response (env : Env) (st : Settings) (app : AppState)
    (hs : env.settingsImport = Except.ok st)
    (h : serveState env = some app) :
    handleRequest app "GET" "/" =
      some { status := 200,
             body := [("message", "Welcome to ArtReal API"),
                      ("version", st.APP_VERSION),
                      ("docs", "/docs")] } := by
  rcases hdb : env.dbImport with e2 | u <;>
    rcases hapi : env.apiImport with e3 | u2 <;>
      rcases hll : env.setLogLevels with e4 | u3 <;>
        simp [serveState, runBootstrap, fatalBoundary, hs, hdb, hapi, hll, runHook,
              startup_event_never_raises] at h
  subst h
  simp [handleRequest, List.find?, root]

/-- Closed instance of C7 at the nominal environment. -/
theorem root_endpoint_response_witness :
    handleRequest appNominal "GET" "/" =
      some { status := 200,
             body := [("message", "Welcome to ArtReal API"),
                      ("version", settingsNominal.APP_VERSION),
                      ("docs", "/docs")] } :=
  root_endpoint_response envNominal settingsNominal appNominal rfl (by decide)

/-- C8: every serving application carries exactly the registered CORS
policy — all origins, no credentials, all methods, all headers, all
exposed headers — and under that policy a preflight permits any origin,
method and requested headers, while its answer never carries the
credentials-allowed header. -/
theorem cors_policy_permissive (env : Env) (app : AppState)
    (origin method v : String) (reqHeaders : List String)
    (h : serveState env = some app) :
    app.middleware = [corsRegistration] ∧
    corsRegistration =
      { allow_origins := ["*"], allow_credentials := false, allow_methods := ["*"],
        allow_headers := ["*"], expose_headers := ["*"] } ∧
    preflightPermits corsRegistration origin method reqHeaders = true ∧
    ("Access-Control-Allow-Credentials", v) ∉
      preflight corsRegistration origin method reqHeaders := by
  refine ⟨?_, rfl, ?_, ?_⟩
  · rcases hset : env.settingsImport with e1 | st <;>
      rcases hdb : env.dbImport with e2 | u <;>
        rcases hapi : env.apiImport with e3 | u2 <;>
          rcases hll : env.setLogLevels with e4 | u3 <;>
            simp [serveState, runBootstrap, fatalBoundary, hset, hdb, hapi, hll, runHook,
                  startup_event_never_raises] at h
    subst h
    rfl
  · simp [preflightPermits, corsRegistration]
  · simp [preflight, corsRegistration]

/-- Closed instance of C8 at the nominal environment and a sample
preflight. -/
theorem cors_policy_permissive_witness :
    appNominal.middleware = [corsRegistration] ∧
    corsRegistration =
      { allow_origins := ["*"], allow_credentials := false, allow_methods := ["*"],
        allow_headers := ["*"], expose_headers := ["*"] } ∧
    preflightPermits corsRegistration "https://example.com" "DELETE"
      ["X-Custom", "Content-Type"] = true ∧
    ("Access-Control-Allow-Credentials", "true") ∉
      preflight corsRegistration "https://example.com" "DELETE"
        ["X-Custom", "Content-Type"] :=
  cors_policy_permissive envNominal appNominal "https://example.com" "DELETE" "true"
    ["X-Custom", "Content-Type"] (by decide)

/-- C9: the entry point always binds host `0.0.0.0` and port `8000`; the
`PORT` environment variable never changes the `uvicorn.run` arguments and
is consumed only by the informational log line. -/
theorem port_env_informational (env : Env) (p : Option String) (a : UvicornArgs)
    (h : mainEntry env = some a) :
    a.host = "0.0.0.0" ∧ a.port = 8000 ∧ a.application = "app.main:app" ∧
    mainEntry { env with portEnv := p } = some a ∧
    LogEntry.info ("📍 PORT env: " ++ (env.portEnv.getD "not set")) ∈
      (runBootstrap env).logOf := by
  rcases hset : env.settingsImport with e1 | st <;>
    rcases hdb : env.dbImport with e2 | u <;>
      rcases hapi : env.apiImport with e3 | u2 <;>
        rcases hll : env.setLogLevels with e4 | u3 <;>
          simp [mainEntry, runBootstrap, fatalBoundary, hset, hdb, hapi, hll,
                BootstrapResult.logOf] at h ⊢
  subst h
  simp

/-- Closed instance of C9 at the nominal environment (whose `PORT`
variable is `8080`) and a run with `PORT` unset. -/
theorem port_env_informational_witness :
    ({ application := "app.main:app", host := "0.0.0.0", port := 8000,
       reload := false } : UvicornArgs).host = "0.0.0.0" ∧
    ({ application := "app.main:app", host := "0.0.0.0", port := 8000,
       reload := false } : UvicornArgs).port = 8000 ∧
    ({ application := "app.main:app", host := "0.0.0.0", port := 8000,
       reload := false } : UvicornArgs).application = "app.main:app" ∧
    mainEntry { envNominal with portEnv := none } =
      some { application := "app.main:app", host := "0.0.0.0", port := 8000,
             reload := false } ∧
    LogEntry.info ("📍 PORT env: " ++ ((envNominal.portEnv).getD "not set")) ∈
      (runBootstrap envNominal).logOf :=
  port_env_informational envNominal none
    { application := "app.main:app", host := "0.0.0.0", port := 8000, reload := false }
    (by decide)

/-- C10: the `app.agents` import is performed lazily inside the shutdown
failure boundary, so its failure at shutdown is logged and swallowed —
never preventing process exit — whereas the module-scope database and
router imports failing abort bootstrap before serving. -/
theorem lazy_agents_import_contained (env : Env) (e e2 : String)
    (hag : env.agentsImport = Except.error e)
    (hdb : env.dbImport = Except.error e2)
    (hapi : env.apiImport = Except.error e2) :
    (shutdown_event env).raised = false ∧
    (shutdown_event env).log = [LogEntry.error ("❌ Error during shutdown: " ++ e)] ∧
    serveState env = none ∧
    serveState { env with dbImport := Except.ok () } = none := by
  refine ⟨shutdown_event_never_raises env, ?_, ?_, ?_⟩
  · simp [shutdown_event, hag]
  · rcases hset : env.settingsImport with e1 | st <;>
      simp [serveState, runBootstrap, fatalBoundary, hset, hdb]
  · rcases hset : env.settingsImport with e1 | st <;>
      simp [serveState, runBootstrap, fatalBoundary, hset, hapi]

/-- Closed instance of C10 at a concrete environment where all
three imports raise. -/
theorem lazy_agents_import_contained_witness :
    (shutdown_event envMixedFail).raised = false ∧
    (shutdown_event envMixedFail).log =
      [LogEntry.error ("❌ Error during shutdown: " ++ "no agents module")] ∧
    serveState envMixedFail = none ∧
    serveState { envMixedFail with dbImport := Except.ok () } = none :=
  lazy_agents_import_contained envMixedFail "no agents module" "no db module"
    rfl rfl rfl

end ArtReal
